import Mathlib

/-!
Verification development for the `microdetect_api` repository.

The definitions below are a shallow embedding of the parts of
`src/microdetect/services/hyperparam_service.py` and
`src/microdetect/services/training_service.py` (together with the
SQLAlchemy models in `src/microdetect/models/`) that the statements in
this file are about.  Python dictionaries are embedded as insertion-ordered
association lists with first-match lookup, `dict.__setitem__` replaces in
place, and `dict.update` folds `__setitem__` over the argument, exactly as
in CPython.  Both status enums in the source derive from `str`, so their
members are the plain strings `"pending"`, `"running"`, `"completed"`,
`"failed"`; statuses are therefore embedded as `String` (this also lets us
represent the literal string `"training"` that `TrainingService.start_training`
assigns).  `datetime.utcnow()` results are abstracted as `Nat` timestamps
passed in explicitly.
-/

namespace Microdetect

/-- First-match lookup in an insertion-ordered association list; this is the
extensional behaviour of `d[k]` / `k in d` on a Python dict, whose keys are
unique. -/
def pyLookup {K V : Type} [DecidableEq K] : List (K × V) → K → Option V
  | [], _ => none
  | (k2, v) :: rest, k => if k2 = k then some v else pyLookup rest k

/-- Python dict assignment `d[k] = v`: replace in place if the key is
present (preserving insertion order), append otherwise. -/
def pySet {K V : Type} [DecidableEq K] : List (K × V) → K → V → List (K × V)
  | [], k, v => [(k, v)]
  | (k2, v2) :: rest, k, v =>
      if k2 = k then (k2, v) :: rest else (k2, v2) :: pySet rest k v

/-- Python `d.update(p)`: fold assignment over the entries of `p`. -/
def pyUpdate {K V : Type} [DecidableEq K] (d p : List (K × V)) : List (K × V) :=
  p.foldl (fun acc kv => pySet acc kv.1 kv.2) d

/-- Embedding of Python runtime values as they occur in the service layer
(JSON columns, search spaces, progress snapshots).  `pRat` stands for
Python floats: every literal in the claims is an exact decimal, and the
comparisons the code performs on these values have the same outcome over
the rationals. -/
inductive PyVal : Type where
  | pInt (n : Int)
  | pRat (q : Rat)
  | pStr (s : String)
  | pBool (b : Bool)
  | pNone
  | pList (xs : List PyVal)
  | pTuple (xs : List PyVal)
  | pDict (kvs : List (String × PyVal))

/-- Deterministic model of the `random` module's generator: like the
Mersenne Twister behind `random.choice` / `random.randint` /
`random.random`, every call is a pure function of the generator state,
which the call advances.  The concrete recurrence (a 64-bit LCG) differs
from CPython's, which is irrelevant to the properties proved here. -/
structure Rng : Type where
  state : Nat

def Rng.next (r : Rng) : Nat × Rng :=
  let s := (r.state * 6364136223846793005 + 1442695040888963407) % 2 ^ 64
  (s, ⟨s⟩)

/-- Draw a natural number below `n` (for `n > 0`). -/
def Rng.randNat (r : Rng) (n : Nat) : Nat × Rng :=
  let p := r.next
  (p.1 % n, p.2)

/-- Model of `random.randint(a, b)`: inclusive range, `ValueError` when the
range is empty. -/
def Rng.randint (r : Rng) (a b : Int) : Except String (Int × Rng) :=
  if b < a then .error "empty range for randrange" else
    let p := r.randNat (b - a + 1).toNat
    .ok (a + (p.1 : Int), p.2)

/-- Model of `random.choice(xs)`: `IndexError` on an empty sequence. -/
def Rng.choice (r : Rng) (xs : List PyVal) : Except String (PyVal × Rng) :=
  match xs with
  | [] => .error "Cannot choose from an empty sequence"
  | _ :: _ =>
      let p := r.randNat xs.length
      .ok (xs.getD p.1 .pNone, p.2)

/-- Model of `random.random()`: a rational in `[0, 1)` drawn from the
generator (CPython draws a 53-bit numerator the same way). -/
def Rng.random (r : Rng) : Rat × Rng :=
  let p := r.next
  (((p.1 % 2 ^ 53 : Nat) : Rat) / ((2 ^ 53 : Nat) : Rat), p.2)

/-- Numeric view of a Python value, for arithmetic such as
`min_val + random.random() * (max_val - min_val)`. -/
def asNum : PyVal → Option Rat
  | .pInt n => some (n : Rat)
  | .pRat q => some q
  | _ => none

/-- The numeric-range branch of `generate_params`: both endpoints `int`
means `random.randint`, otherwise the float formula
`min_val + random.random() * (max_val - min_val)`; non-numeric endpoints
raise a `TypeError` in Python. -/
def sampleRange (r : Rng) (minV maxV : PyVal) : Except String (PyVal × Rng) :=
  match minV, maxV with
  | .pInt a, .pInt b =>
      (Rng.randint r a b).map (fun p => (.pInt p.1, p.2))
  | mv, xv =>
      match asNum mv, asNum xv with
      | some a, some b =>
          let p := r.random
          .ok (.pRat (a + p.1 * (b - a)), p.2)
      | _, _ => .error "unsupported operand type for range sampling"

/-- One arm of the `isinstance` dispatch in
`HyperparameterOptimizer.generate_params` (hyperparam_service.py, lines
44-76).  Returns `none` for the parameter value exactly when the code adds
no entry for this parameter: a dict domain carrying neither both `"min"`
and `"max"` nor `"options"` falls through the inner `if`/`elif` with no
`else`. -/
def genParam (r : Rng) (space : PyVal) : Except String (Option PyVal × Rng) :=
  match space with
  | .pList xs => (r.choice xs).map (fun p => (some p.1, p.2))
  | .pDict d =>
      match pyLookup d "min", pyLookup d "max" with
      | some a, some b => (sampleRange r a b).map (fun p => (some p.1, p.2))
      | _, _ =>
          match pyLookup d "options" with
          | some (.pList xs) => (r.choice xs).map (fun p => (some p.1, p.2))
          | some _ => .error "options value is not a sequence"
          | none => .ok (none, r)
  | .pTuple [mv, xv] => (sampleRange r mv xv).map (fun p => (some p.1, p.2))
  | other => .ok (some other, r)

/-- Model of `HyperparameterOptimizer.generate_params`: iterate over the
search-space entries in insertion order, sampling each domain and building
the `params` dict. -/
def generate_params (space : List (String × PyVal)) (r : Rng) :
    Except String (List (String × PyVal) × Rng) :=
  match space with
  | [] => .ok ([], r)
  | (name, sp) :: rest =>
      match genParam r sp with
      | .error e => .error e
      | .ok (none, r2) => generate_params rest r2
      | .ok (some v, r2) =>
          (generate_params rest r2).map (fun p => ((name, v) :: p.1, p.2))

/-- The domain shapes `generate_params` recognizes, read off its dispatch:
every value except a dict that carries neither both `"min"` and `"max"` nor
`"options"` (the one shape for which the code falls through its inner
`if`/`elif` without adding a parameter). -/
def recognizedDomain : PyVal → Bool
  | .pDict d =>
      ((pyLookup d "min").isSome && (pyLookup d "max").isSome)
        || (pyLookup d "options").isSome
  | _ => true

/-- A parameter set, as produced by `generate_params` and stored in a
trial. -/
abbrev Params : Type := List (String × PyVal)

/-- The metrics dict a finished training run reports to the optimizer
(`map50` etc.); its values are Python floats. -/
abbrev Metrics : Type := List (String × Rat)

/-- One entry of `HyperparameterOptimizer.trials`, as appended by
`update_best` (params, metrics, `datetime.utcnow().isoformat()`). -/
structure Trial : Type where
  params : Params
  metrics : Metrics
  timestamp : String

/-- The mutable fields of `HyperparameterOptimizer` that `update_best`
reads and writes. -/
structure OptimizerState : Type where
  trials : List Trial
  best_params : Option Params
  best_metric : Rat
  metric_key : String

/-- State set up by `HyperparameterOptimizer.__init__`: no trials, no best
parameters, `best_metric = 0.0`, `metric_key = "map50"`. -/
def OptimizerState.init : OptimizerState :=
  { trials := [], best_params := none, best_metric := 0, metric_key := "map50" }

/-- Model of `HyperparameterOptimizer.update_best` (hyperparam_service.py,
lines 78-96): return unchanged when `metrics` is falsy or lacks
`metric_key`; otherwise append the trial and replace the best exactly when
`best_params is None or metric_value > best_metric`. -/
def update_best (s : OptimizerState) (params : Params) (metrics : Metrics)
    (now : String) : OptimizerState :=
  if metrics = [] then s else
    match pyLookup metrics s.metric_key with
    | none => s
    | some v =>
        let s2 := { s with trials := s.trials ++ [⟨params, metrics, now⟩] }
        if s2.best_params.isNone ∨ s2.best_metric < v then
          { s2 with best_params := some params, best_metric := v }
        else s2

/-- Members of the `str` enum `HyperparamSearchStatus`
(models/hyperparam_search.py): as strings, because the enum derives from
`str` and its members compare equal to these literals. -/
def HyperparamSearchStatus.PENDING : String := "pending"

def HyperparamSearchStatus.RUNNING : String := "running"

def HyperparamSearchStatus.COMPLETED : String := "completed"

def HyperparamSearchStatus.FAILED : String := "failed"

/-- Members of the `str` enum `TrainingStatus`
(models/training_session.py). -/
def TrainingStatus.PENDING : String := "pending"

def TrainingStatus.RUNNING : String := "running"

def TrainingStatus.COMPLETED : String := "completed"

def TrainingStatus.FAILED : String := "failed"

/-- The columns of the `HyperparamSearch` model that the service reads and
writes.  Timestamps are abstract `Nat` instants; JSON columns are
`PyVal`. -/
structure HyperparamSearch : Type where
  name : String := ""
  status : String := HyperparamSearchStatus.PENDING
  started_at : Option Nat := none
  completed_at : Option Nat := none
  error_message : Option String := none
  best_params : PyVal := .pNone
  best_metrics : PyVal := .pNone
  trials_data : PyVal := .pNone
  iterations : Nat := 5

/-- The columns of the `TrainingSession` model that the service reads and
writes. -/
structure TrainingSession : Type where
  name : String := ""
  description : String := ""
  status : String := TrainingStatus.PENDING
  started_at : Option Nat := none
  completed_at : Option Nat := none
  error_message : Option String := none
  metrics : PyVal := .pNone

/-- Model of the status/timestamp writes of `HyperparamService.start_search`
(hyperparam_service.py, lines 213-243 and 365-371): a search that is not
`PENDING` is left untouched (the guard logs and returns); otherwise the
search becomes `RUNNING` with `started_at` set, and if spawning the worker
process raises (`spawnErr`), the `except` branch marks it `FAILED` with the
error message and `completed_at`. -/
def start_search_update (s : HyperparamSearch) (now : Nat)
    (spawnErr : Option String) : HyperparamSearch :=
  if s.status ≠ HyperparamSearchStatus.PENDING then s
  else
    let s2 := { s with status := HyperparamSearchStatus.RUNNING,
                       started_at := some now }
    match spawnErr with
    | none => s2
    | some e => { s2 with status := HyperparamSearchStatus.FAILED,
                          error_message := some e,
                          completed_at := some now }

/-- Model of the database update performed by
`HyperparamService._monitor_search_completion` (hyperparam_service.py,
lines 586-659) on the monitored search once the worker process has exited.
`returncode` and `stderrText` are the worker's exit code and captured
standard error; `results` is the parsed `final_results.json` when that file
exists.  A non-zero exit code raises
`RuntimeError(f"Search process failed with code {returncode}")` — the
captured stderr is only passed to `logger.error`, it does not reach the
record — and a missing results file raises `FileNotFoundError`; the
`except` branch stores `str(e)` as the error message, marks the search
`FAILED` and stamps `completed_at`.  On success the results are copied in,
the search is marked `COMPLETED` and `completed_at` is stamped. -/
def monitor_search_step (s : HyperparamSearch) (returncode : Int)
    (stderrText : String) (results : Option (List (String × PyVal)))
    (resultsPath : String) (now : Nat) : HyperparamSearch :=
  if returncode ≠ 0 then
    { s with status := HyperparamSearchStatus.FAILED,
             error_message :=
               some ("Search process failed with code " ++ toString returncode),
             completed_at := some now }
  else
    match results with
    | none =>
        { s with status := HyperparamSearchStatus.FAILED,
                 error_message := some ("Results file not found at " ++ resultsPath),
                 completed_at := some now }
    | some res =>
        { s with best_params := (pyLookup res "best_params").getD (.pDict []),
                 best_metrics := (pyLookup res "best_metrics").getD (.pDict []),
                 trials_data := (pyLookup res "trials").getD (.pList []),
                 status := HyperparamSearchStatus.COMPLETED,
                 completed_at := some now }

/-- Model of the database update performed by
`TrainingService._monitor_training_completion` (training_service.py, lines
438-529), structured exactly like the search monitor: non-zero exit raises
`RuntimeError(f"Training process failed with code {returncode}")` with the
stderr only logged, a missing `results.json` raises `FileNotFoundError`,
and the `except` branch stores `str(e)`, marks the session `FAILED` and
stamps `completed_at`; on success the metrics are stored and the session is
marked `COMPLETED`. -/
def monitor_training_step (s : TrainingSession) (returncode : Int)
    (stderrText : String) (results : Option PyVal) (resultsPath : String)
    (now : Nat) : TrainingSession :=
  if returncode ≠ 0 then
    { s with status := TrainingStatus.FAILED,
             error_message :=
               some ("Training process failed with code " ++ toString returncode),
             completed_at := some now }
  else
    match results with
    | none =>
        { s with status := TrainingStatus.FAILED,
                 error_message := some ("Results file not found at " ++ resultsPath),
                 completed_at := some now }
    | some m =>
        { s with metrics := m,
                 status := TrainingStatus.COMPLETED,
                 completed_at := some now }

/-- Model of the guard and first status write of
`TrainingService.train_model` (training_service.py, lines 628-652): a
session whose status is neither `PENDING` nor `FAILED` is returned
unchanged with the flag `false` (the method logs a warning and returns the
stored metrics); otherwise — so also for a `FAILED` session — the session
becomes `RUNNING` with `started_at` set and the flag is `true`. -/
def train_model_begin (s : TrainingSession) (now : Nat) :
    TrainingSession × Bool :=
  if s.status ≠ TrainingStatus.PENDING ∧ s.status ≠ TrainingStatus.FAILED then
    (s, false)
  else
    ({ s with status := TrainingStatus.RUNNING, started_at := some now }, true)

/-- Model of the terminal write of `TrainingService.train_model`
(training_service.py, lines 653-726): on a successful training run the
metrics are stored and the session is marked `COMPLETED`; the `except`
branch marks it `FAILED` with the error message; both stamp
`completed_at`. -/
def train_model_finish (s : TrainingSession) (outcome : Except String PyVal)
    (now : Nat) : TrainingSession :=
  match outcome with
  | .ok m =>
      { s with metrics := m, status := TrainingStatus.COMPLETED,
               completed_at := some now }
  | .error e =>
      { s with status := TrainingStatus.FAILED, error_message := some e,
               completed_at := some now }

/-- Model of `TrainingService.start_training` (training_service.py, lines
165-398): with no status guard at all, the session's status is set to the
literal string `"training"` (not a `TrainingStatus` member) and
`started_at` is stamped; if spawning the worker raises, the `except` branch
sets the literal `"failed"`, the error message and `completed_at`, then
re-raises. -/
def start_training_update (s : TrainingSession) (now : Nat)
    (spawnErr : Option String) : TrainingSession :=
  let s2 := { s with status := "training", started_at := some now }
  match spawnErr with
  | none => s2
  | some e => { s2 with status := "failed", error_message := some e,
                        completed_at := some now }

/-- Model of the fallback in the `except` branch of
`HyperparamService._create_final_model` (hyperparam_service.py, lines
752-769): when the exception struck before a training session existed, a
fresh `TrainingSession` is constructed with `status=TrainingStatus.FAILED`
and the error text in the description — and with `started_at`,
`completed_at` and `error_message` left at their column defaults
(unset). -/
def create_final_model_fallback (search_id : Nat) (errMsg : String) :
    TrainingSession :=
  { name := "Modelo final da busca " ++ toString search_id ++ " (falhou)",
    description := "Tentativa falhou: " ++ errMsg,
    status := TrainingStatus.FAILED }

/-- A progress snapshot: the Python dict held in `_progress_data[jobId]`. -/
abbrev Snapshot : Type := List (String × PyVal)

/-- The in-memory progress store `_progress_data`, keyed by job id. -/
abbrev ProgressStore : Type := List (Nat × Snapshot)

/-- The empty snapshot literal that `HyperparamService.get_progress` returns
for an unknown id and that `HyperparamService.update_progress` starts from
when the id is absent (hyperparam_service.py, lines 135-176). -/
def emptySearchProgress : Snapshot :=
  [("current_iteration", .pInt 0),
   ("total_iterations", .pInt 0),
   ("iterations_completed", .pInt 0),
   ("current_params", .pDict []),
   ("best_params", .pDict []),
   ("best_metrics", .pDict []),
   ("trials", .pList []),
   ("status", .pStr "pending")]

/-- The empty snapshot literal of `TrainingService.get_progress` /
`TrainingService.update_progress` (training_service.py, lines 727-766). -/
def emptyTrainingProgress : Snapshot :=
  [("current_epoch", .pInt 0),
   ("total_epochs", .pInt 0),
   ("metrics", .pDict []),
   ("resources", .pDict []),
   ("status", .pStr "pending")]

/-- Model of `HyperparamService.get_progress` (hyperparam_service.py, lines
135-156): the stored snapshot, or the empty snapshot when the id is
absent. -/
def HyperparamService.get_progress (store : ProgressStore) (search_id : Nat) :
    Snapshot :=
  (pyLookup store search_id).getD emptySearchProgress

/-- Model of the `_progress_data` write of `HyperparamService.update_progress`
(hyperparam_service.py, lines 158-193): create the entry from the empty
snapshot if absent, then `dict.update` it with the given partial data.
(The method's conditional mirroring of `best_params` / `best_metrics` into
the database touches only the `HyperparamSearch` row, never the store, and
is not part of this function.) -/
def HyperparamService.update_progress (store : ProgressStore) (search_id : Nat)
    (progress_data : Snapshot) : ProgressStore :=
  let base := (pyLookup store search_id).getD emptySearchProgress
  pySet store search_id (pyUpdate base progress_data)

/-- Model of `TrainingService.get_progress` (training_service.py, lines
727-745). -/
def TrainingService.get_progress (store : ProgressStore) (session_id : Nat) :
    Snapshot :=
  (pyLookup store session_id).getD emptyTrainingProgress

/-- Model of the `_progress_data` write of `TrainingService.update_progress`
(training_service.py, lines 747-777); the conditional database mirroring of
`metrics` does not touch the store. -/
def TrainingService.update_progress (store : ProgressStore) (session_id : Nat)
    (progress_data : Snapshot) : ProgressStore :=
  let base := (pyLookup store session_id).getD emptyTrainingProgress
  pySet store session_id (pyUpdate base progress_data)

/-- The timestamp/status invariant of the spec: `started_at` is set iff the
status is `running`, `completed` or `failed`; `completed_at` is set iff the
status is `completed` or `failed`.  Both job kinds use the same status
strings. -/
def timestampInv (status : String) (started completed : Option Nat) : Prop :=
  (started.isSome = true ↔
    (status = "running" ∨ status = "completed" ∨ status = "failed"))
  ∧ (completed.isSome = true ↔ (status = "completed" ∨ status = "failed"))

def HyperparamSearch.inv (s : HyperparamSearch) : Prop :=
  timestampInv s.status s.started_at s.completed_at

def TrainingSession.inv (s : TrainingSession) : Prop :=
  timestampInv s.status s.started_at s.completed_at

instance (status : String) (started completed : Option Nat) :
    Decidable (timestampInv status started completed) := by
  unfold timestampInv
  infer_instance

instance (s : HyperparamSearch) : Decidable s.inv := by
  unfold HyperparamSearch.inv
  infer_instance

instance (s : TrainingSession) : Decidable s.inv := by
  unfold TrainingSession.inv
  infer_instance

theorem pyLookup_nil {K V : Type} [DecidableEq K] (k : K) :
    pyLookup ([] : List (K × V)) k = none := rfl

theorem pyLookup_pySet {K V : Type} [DecidableEq K]
    (d : List (K × V)) (k : K) (v : V) (k2 : K) :
    pyLookup (pySet d k v) k2 = if k = k2 then some v else pyLookup d k2 := by
  induction d with
  | nil =>
      simp only [pySet, pyLookup]
  | cons hd tl ih =>
      obtain ⟨kh, vh⟩ := hd
      by_cases hkh : kh = k
      · subst hkh
        by_cases hk2 : kh = k2
        · subst hk2
          simp [pySet, pyLookup]
        · simp [pySet, pyLookup, hk2]
      · by_cases hk2 : kh = k2
        · subst hk2
          have hne : ¬ k = kh := fun h => hkh h.symm
          simp [pySet, pyLookup, hkh, hne]
        · simp [pySet, pyLookup, hkh, hk2, ih]

theorem pyLookup_eq_none_of_not_mem {K V : Type} [DecidableEq K]
    (p : List (K × V)) (k : K) (h : k ∉ p.map Prod.fst) :
    pyLookup p k = none := by
  induction p with
  | nil => rfl
  | cons hd tl ih =>
      obtain ⟨kh, vh⟩ := hd
      simp only [List.map_cons, List.mem_cons] at h
      push_neg at h
      have hne : kh ≠ k := fun hk => h.1 hk.symm
      simpa [pyLookup, hne] using ih h.2

/-- Behaviour of `d.update(p)` under lookup, for `p` with distinct keys (as
any Python dict has): keys of `p` take `p`'s value, all other keys keep the
value they had in `d`. -/
theorem pyLookup_pyUpdate {K V : Type} [DecidableEq K]
    (d p : List (K × V)) (k : K) (hnd : (p.map Prod.fst).Nodup) :
    pyLookup (pyUpdate d p) k = (pyLookup p k).orElse (fun _ => pyLookup d k) := by
  induction p generalizing d with
  | nil =>
      simp [pyUpdate, pyLookup, Option.orElse]
  | cons hd tl ih =>
      obtain ⟨kh, vh⟩ := hd
      simp only [List.map_cons, List.nodup_cons] at hnd
      have hstep : pyUpdate d ((kh, vh) :: tl) = pyUpdate (pySet d kh vh) tl := rfl
      rw [hstep, ih (pySet d kh vh) hnd.2]
      by_cases hk : kh = k
      · subst hk
        have htl : pyLookup tl kh = none :=
          pyLookup_eq_none_of_not_mem tl kh hnd.1
        simp [pyLookup, htl, pyLookup_pySet, Option.orElse]
      · simp [pyLookup, hk, pyLookup_pySet, Option.orElse]

/-- C2: `update_best` replaces an existing best only when the new trial's
value under the metric key strictly exceeds the stored best metric — on a
tie the earlier-found best is kept — and on the observation sequence whose
`map50` values are 0.5, 0.3, 0.7, 0.7 the recorded best is the first trial
scoring 0.7 (here the trial with `lr = 3`), with best metric 0.7. -/
theorem update_best_strict_improvement
    (s : OptimizerState) (params : Params) (metrics : Metrics) (now : String)
    (q : Params) (v : Rat)
    (hbest : s.best_params = some q)
    (hv : pyLookup metrics s.metric_key = some v)
    (hle : v ≤ s.best_metric) :
    ((update_best s params metrics now).best_params = some q ∧
      (update_best s params metrics now).best_metric = s.best_metric) ∧
    ([([("lr", PyVal.pInt 1)], [("map50", mkRat 1 2)]),
      ([("lr", PyVal.pInt 2)], [("map50", mkRat 3 10)]),
      ([("lr", PyVal.pInt 3)], [("map50", mkRat 7 10)]),
      ([("lr", PyVal.pInt 4)], [("map50", mkRat 7 10)])].foldl
        (fun st pm => update_best st pm.1 pm.2 "t") OptimizerState.init
      = { trials :=
            [⟨[("lr", PyVal.pInt 1)], [("map50", mkRat 1 2)], "t"⟩,
             ⟨[("lr", PyVal.pInt 2)], [("map50", mkRat 3 10)], "t"⟩,
             ⟨[("lr", PyVal.pInt 3)], [("map50", mkRat 7 10)], "t"⟩,
             ⟨[("lr", PyVal.pInt 4)], [("map50", mkRat 7 10)], "t"⟩],
          best_params := some [("lr", PyVal.pInt 3)],
          best_metric := mkRat 7 10,
          metric_key := "map50" }) := by
  refine ⟨?_, by rfl⟩
  have hne : metrics ≠ [] := by
    intro h
    rw [h] at hv
    simp [pyLookup] at hv
  have hnlt : ¬ s.best_metric < v := not_lt.mpr hle
  constructor <;> simp [update_best, hne, hv, hbest, hnlt]

/-- Witness for C2: a tie (new metric equal to the stored best) leaves the
stored best parameters and best metric unchanged. -/
theorem update_best_strict_improvement_witness :
    ((update_best ⟨[], some [("a", PyVal.pInt 1)], mkRat 7 10, "map50"⟩
        [("b", PyVal.pInt 2)] [("map50", mkRat 7 10)] "t").best_params
          = some [("a", PyVal.pInt 1)] ∧
      (update_best ⟨[], some [("a", PyVal.pInt 1)], mkRat 7 10, "map50"⟩
        [("b", PyVal.pInt 2)] [("map50", mkRat 7 10)] "t").best_metric
          = (⟨[], some [("a", PyVal.pInt 1)], mkRat 7 10,
              "map50"⟩ : OptimizerState).best_metric) ∧
    ([([("lr", PyVal.pInt 1)], [("map50", mkRat 1 2)]),
      ([("lr", PyVal.pInt 2)], [("map50", mkRat 3 10)]),
      ([("lr", PyVal.pInt 3)], [("map50", mkRat 7 10)]),
      ([("lr", PyVal.pInt 4)], [("map50", mkRat 7 10)])].foldl
        (fun st pm => update_best st pm.1 pm.2 "t") OptimizerState.init
      = { trials :=
            [⟨[("lr", PyVal.pInt 1)], [("map50", mkRat 1 2)], "t"⟩,
             ⟨[("lr", PyVal.pInt 2)], [("map50", mkRat 3 10)], "t"⟩,
             ⟨[("lr", PyVal.pInt 3)], [("map50", mkRat 7 10)], "t"⟩,
             ⟨[("lr", PyVal.pInt 4)], [("map50", mkRat 7 10)], "t"⟩],
          best_params := some [("lr", PyVal.pInt 3)],
          best_metric := mkRat 7 10,
          metric_key := "map50" }) :=
  update_best_strict_improvement
    ⟨[], some [("a", PyVal.pInt 1)], mkRat 7 10, "map50"⟩
    [("b", PyVal.pInt 2)] [("map50", mkRat 7 10)] "t"
    [("a", PyVal.pInt 1)] (mkRat 7 10) rfl rfl (le_refl _)

/-- C3 counterexample: an `update_best` call whose metrics lack the
configured key `"map50"` does NOT append the trial to `trials` — the method
returns before the append — so the claim that the trial is still recorded
fails on the initial optimizer state with metrics `{"precision": 0.9}`. -/
theorem update_best_missing_key_not_recorded_cex :
    (update_best OptimizerState.init [("lr", PyVal.pInt 1)]
        [("precision", mkRat 9 10)] "t").trials = [] ∧
    OptimizerState.init.trials ++
        [⟨[("lr", PyVal.pInt 1)], [("precision", mkRat 9 10)], "t"⟩] ≠ [] := by
  exact ⟨rfl, by simp⟩

/-- C3 (amended): when the metrics mapping lacks the configured metric key,
`update_best` returns the optimizer state entirely unchanged — the best
parameters and best metric are untouched, and the trial is NOT appended to
the trials list (the guard returns before the append). -/
theorem update_best_missing_key_noop
    (s : OptimizerState) (params : Params) (metrics : Metrics) (now : String)
    (h : pyLookup metrics s.metric_key = none) :
    update_best s params metrics now = s := by
  by_cases hm : metrics = [] <;> simp [update_best, hm, h]

/-- Witness for C3 (amended): concrete call with metrics lacking `"map50"`
leaves the initial optimizer state unchanged. -/
theorem update_best_missing_key_noop_witness :
    update_best OptimizerState.init [("lr", PyVal.pInt 1)]
        [("precision", mkRat 9 10)] "t" = OptimizerState.init :=
  update_best_missing_key_noop OptimizerState.init [("lr", PyVal.pInt 1)]
    [("precision", mkRat 9 10)] "t" rfl

/-- C9: on the freshly initialised optimizer (whose `best_params` is `None`
and `best_metric` is 0.0), the first observed trial whose metrics contain
`"map50"` always becomes the best — whatever its value `v`, even `v ≤ 0` —
because the update condition is `best_params is None or metric_value >
best_metric`. -/
theorem update_best_first_trial_becomes_best
    (params : Params) (metrics : Metrics) (now : String) (v : Rat)
    (hv : pyLookup metrics "map50" = some v) :
    (update_best OptimizerState.init params metrics now).best_params
        = some params ∧
    (update_best OptimizerState.init params metrics now).best_metric = v ∧
    (update_best OptimizerState.init params metrics now).trials
        = [⟨params, metrics, now⟩] := by
  have hne : metrics ≠ [] := by
    intro h
    rw [h] at hv
    simp [pyLookup] at hv
  refine ⟨?_, ?_, ?_⟩ <;>
    simp [update_best, OptimizerState.init, hne, hv]

/-- Witness for C9: a first trial with the negative map50 value -0.5 still
becomes the recorded best. -/
theorem update_best_first_trial_becomes_best_witness :
    (update_best OptimizerState.init [("lr", PyVal.pInt 1)]
        [("map50", mkRat (-1) 2)] "t").best_params
          = some [("lr", PyVal.pInt 1)] ∧
    (update_best OptimizerState.init [("lr", PyVal.pInt 1)]
        [("map50", mkRat (-1) 2)] "t").best_metric = mkRat (-1) 2 ∧
    (update_best OptimizerState.init [("lr", PyVal.pInt 1)]
        [("map50", mkRat (-1) 2)] "t").trials
          = [⟨[("lr", PyVal.pInt 1)], [("map50", mkRat (-1) 2)], "t"⟩] :=
  update_best_first_trial_becomes_best [("lr", PyVal.pInt 1)]
    [("map50", mkRat (-1) 2)] "t" (mkRat (-1) 2) rfl

/-- C1 counterexample: terminal statuses are not final.
`TrainingService.train_model` moves a session whose status is `FAILED` back
to `RUNNING` (its guard admits `PENDING` and `FAILED`), and
`TrainingService.start_training` overwrites the status of a `COMPLETED`
session with the literal `"training"` (it has no status guard at all). -/
theorem terminal_status_reentry_cex :
    (train_model_begin
        { status := TrainingStatus.FAILED, started_at := some 1,
          completed_at := some 2 } 3).1.status = TrainingStatus.RUNNING ∧
    TrainingStatus.FAILED ≠ TrainingStatus.RUNNING ∧
    (start_training_update
        { status := TrainingStatus.COMPLETED, started_at := some 1,
          completed_at := some 2 } 3 none).status = "training" ∧
    TrainingStatus.COMPLETED ≠ "training" := by
  refine ⟨rfl, by decide, rfl, by decide⟩

/-- C1 (amended): the status discipline the services actually implement.
`start_search` leaves any non-`PENDING` search untouched; `train_model`
leaves a session untouched unless its status is `PENDING` or `FAILED`, and
moves those — so a `FAILED` session re-enters `RUNNING` — with its terminal
write always landing on `COMPLETED` or `FAILED`; both completion monitors
only ever assign the terminal statuses `COMPLETED` or `FAILED`; and
`start_training` unconditionally assigns the literal `"training"` (or
`"failed"` when spawning fails), regardless of the prior status. -/
theorem job_status_transition_discipline :
    (∀ (s : HyperparamSearch) (now : Nat) (err : Option String),
      s.status ≠ HyperparamSearchStatus.PENDING →
        start_search_update s now err = s) ∧
    (∀ (s : TrainingSession) (now : Nat),
      s.status ≠ TrainingStatus.PENDING → s.status ≠ TrainingStatus.FAILED →
        train_model_begin s now = (s, false)) ∧
    (∀ (s : TrainingSession) (now : Nat),
      s.status = TrainingStatus.PENDING ∨ s.status = TrainingStatus.FAILED →
        (train_model_begin s now).1.status = TrainingStatus.RUNNING) ∧
    (∀ (s : TrainingSession) (outcome : Except String PyVal) (now : Nat),
      (train_model_finish s outcome now).status = TrainingStatus.COMPLETED ∨
        (train_model_finish s outcome now).status = TrainingStatus.FAILED) ∧
    (∀ (s : HyperparamSearch) (rc : Int) (st : String)
        (res : Option (List (String × PyVal))) (path : String) (now : Nat),
      (monitor_search_step s rc st res path now).status
          = HyperparamSearchStatus.COMPLETED ∨
        (monitor_search_step s rc st res path now).status
          = HyperparamSearchStatus.FAILED) ∧
    (∀ (s : TrainingSession) (rc : Int) (st : String) (res : Option PyVal)
        (path : String) (now : Nat),
      (monitor_training_step s rc st res path now).status
          = TrainingStatus.COMPLETED ∨
        (monitor_training_step s rc st res path now).status
          = TrainingStatus.FAILED) ∧
    (∀ (s : TrainingSession) (now : Nat) (err : Option String),
      (start_training_update s now err).status = "training" ∨
        (start_training_update s now err).status = "failed") := by
  refine ⟨?_, ?_, ?_, ?_, ?_, ?_, ?_⟩
  · intro s now err h
    simp [start_search_update, h]
  · intro s now h1 h2
    simp [train_model_begin, h1, h2]
  · intro s now h
    rcases h with h | h <;> simp [train_model_begin, h, TrainingStatus.PENDING,
      TrainingStatus.FAILED, TrainingStatus.RUNNING]
  · intro s outcome now
    cases outcome <;> simp [train_model_finish]
  · intro s rc st res path now
    by_cases hrc : rc ≠ 0
    · simp [monitor_search_step, hrc]
    · cases res <;> simp [monitor_search_step, hrc]
  · intro s rc st res path now
    by_cases hrc : rc ≠ 0
    · simp [monitor_training_step, hrc]
    · cases res <;> simp [monitor_training_step, hrc]
  · intro s now err
    cases err <;> simp [start_training_update]

/-- Witness for C1 (amended): the discipline evaluated at concrete
records — a completed search is untouched by `start_search`, a completed
session is untouched by `train_model`, a pending session starts running, a
failing run finishes `failed`, both monitors emit terminal statuses, and
`start_training` stamps `"training"`. -/
theorem job_status_transition_discipline_witness :
    start_search_update
        { status := HyperparamSearchStatus.COMPLETED, started_at := some 1,
          completed_at := some 2 } 3 none
      = { status := HyperparamSearchStatus.COMPLETED, started_at := some 1,
          completed_at := some 2 } ∧
    train_model_begin
        { status := TrainingStatus.COMPLETED, started_at := some 1,
          completed_at := some 2 } 3
      = ({ status := TrainingStatus.COMPLETED, started_at := some 1,
           completed_at := some 2 }, false) ∧
    (train_model_begin { status := TrainingStatus.PENDING } 3).1.status
      = TrainingStatus.RUNNING ∧
    ((train_model_finish { status := TrainingStatus.RUNNING } (.error "e") 4).status
        = TrainingStatus.COMPLETED ∨
      (train_model_finish { status := TrainingStatus.RUNNING } (.error "e") 4).status
        = TrainingStatus.FAILED) ∧
    ((monitor_search_step { status := HyperparamSearchStatus.RUNNING } 0 "" none
          "/r" 5).status = HyperparamSearchStatus.COMPLETED ∨
      (monitor_search_step { status := HyperparamSearchStatus.RUNNING } 0 "" none
          "/r" 5).status = HyperparamSearchStatus.FAILED) ∧
    ((monitor_training_step { status := TrainingStatus.RUNNING } 0 "" none
          "/r" 5).status = TrainingStatus.COMPLETED ∨
      (monitor_training_step { status := TrainingStatus.RUNNING } 0 "" none
          "/r" 5).status = TrainingStatus.FAILED) ∧
    ((start_training_update { status := TrainingStatus.PENDING } 6 none).status
        = "training" ∨
      (start_training_update { status := TrainingStatus.PENDING } 6 none).status
        = "failed") :=
  ⟨job_status_transition_discipline.1 _ 3 none (by decide),
   job_status_transition_discipline.2.1 _ 3 (by decide) (by decide),
   job_status_transition_discipline.2.2.1 _ 3 (Or.inl rfl),
   job_status_transition_discipline.2.2.2.1 _ (.error "e") 4,
   job_status_transition_discipline.2.2.2.2.1 _ 0 "" none "/r" 5,
   job_status_transition_discipline.2.2.2.2.2.1 _ 0 "" none "/r" 5,
   job_status_transition_discipline.2.2.2.2.2.2 _ 6 none⟩

/-- C4 counterexample: on a non-zero worker exit code the search completion
monitor marks the search `failed`, but the stored `error_message` is the
`RuntimeError` text naming the exit code, not the captured stderr: it is
identical for two different stderr captures, and it is not a truncation of
the stderr `"boom"` (it is longer than the whole capture and not a prefix
of it). -/
theorem monitor_error_message_not_stderr_cex :
    (monitor_search_step
        { status := HyperparamSearchStatus.RUNNING, started_at := some 1 }
        1 "boom" none "/r.json" 9).status
      = HyperparamSearchStatus.FAILED ∧
    (monitor_search_step
        { status := HyperparamSearchStatus.RUNNING, started_at := some 1 }
        1 "boom" none "/r.json" 9).error_message
      = some "Search process failed with code 1" ∧
    monitor_search_step
        { status := HyperparamSearchStatus.RUNNING, started_at := some 1 }
        1 "boom" none "/r.json" 9
      = monitor_search_step
          { status := HyperparamSearchStatus.RUNNING, started_at := some 1 }
          1 "entirely different stderr" none "/r.json" 9 ∧
    ("Search process failed with code 1").length > ("boom").length ∧
    ("Search process failed with code 1").isPrefixOf "boom" = false := by
  exact ⟨rfl, rfl, rfl, by decide, by decide⟩

/-- C4 (amended): whenever the worker process exits with a non-zero code,
each completion monitor marks the job `FAILED` with `completed_at` set and
stores the message `"<kind> process failed with code <rc>"` in
`error_message`; the captured standard-error text is only logged — the
monitors' database updates are entirely independent of it. -/
theorem monitor_nonzero_exit_marks_failed
    (rc : Int) (hrc : rc ≠ 0) :
    (∀ (s : HyperparamSearch) (st : String)
        (res : Option (List (String × PyVal))) (path : String) (now : Nat),
      monitor_search_step s rc st res path now
        = { s with status := HyperparamSearchStatus.FAILED,
                   error_message :=
                     some ("Search process failed with code " ++ toString rc),
                   completed_at := some now }) ∧
    (∀ (s : TrainingSession) (st : String) (res : Option PyVal)
        (path : String) (now : Nat),
      monitor_training_step s rc st res path now
        = { s with status := TrainingStatus.FAILED,
                   error_message :=
                     some ("Training process failed with code " ++ toString rc),
                   completed_at := some now }) ∧
    (∀ (s : HyperparamSearch) (rc2 : Int) (st1 st2 : String)
        (res : Option (List (String × PyVal))) (path : String) (now : Nat),
      monitor_search_step s rc2 st1 res path now
        = monitor_search_step s rc2 st2 res path now) ∧
    (∀ (s : TrainingSession) (rc2 : Int) (st1 st2 : String)
        (res : Option PyVal) (path : String) (now : Nat),
      monitor_training_step s rc2 st1 res path now
        = monitor_training_step s rc2 st2 res path now) := by
  refine ⟨?_, ?_, ?_, ?_⟩
  · intro s st res path now
    simp [monitor_search_step, hrc]
  · intro s st res path now
    simp [monitor_training_step, hrc]
  · intro s rc2 st1 st2 res path now
    rfl
  · intro s rc2 st1 st2 res path now
    rfl

/-- Witness for C4 (amended): exit code 1 with stderr `"boom"` produces a
`failed` search carrying the exit-code message. -/
theorem monitor_nonzero_exit_marks_failed_witness :
    monitor_search_step
        { status := HyperparamSearchStatus.RUNNING, started_at := some 1 }
        1 "boom" none "/r.json" 9
      = { ({ status := HyperparamSearchStatus.RUNNING,
             started_at := some 1 } : HyperparamSearch) with
          status := HyperparamSearchStatus.FAILED,
          error_message :=
            some ("Search process failed with code " ++ toString (1 : Int)),
          completed_at := some 9 } :=
  (monitor_nonzero_exit_marks_failed 1 (by decide)).1
    { status := HyperparamSearchStatus.RUNNING, started_at := some 1 }
    "boom" none "/r.json" 9

/-- C5: the failure fallback of `_create_final_model` constructs a
`TrainingSession` whose status is `FAILED` while both `started_at` and
`completed_at` are unset, violating the claimed invariant that a `Failed`
job always has `completedAt` (and `startedAt`) set.  Everywhere else the
services pair a `FAILED` write with `completed_at = utcnow()`, so the
missing timestamps in this one branch read as a slip against the spec's
invariant. -/
theorem create_final_model_fallback_violates_inv :
    (create_final_model_fallback 7 "boom").status = TrainingStatus.FAILED ∧
    (create_final_model_fallback 7 "boom").completed_at = none ∧
    (create_final_model_fallback 7 "boom").started_at = none ∧
    ¬ (create_final_model_fallback 7 "boom").inv := by
  refine ⟨rfl, rfl, rfl, ?_⟩
  intro h
  have := h.2.mpr (Or.inr rfl)
  simp [create_final_model_fallback] at this

/-- Shared shape of both services' progress writes: setting the merged
snapshot under the job id and reading it back gives, at every key, the
partial data's value when present and the previous (or empty) snapshot's
value otherwise. -/
theorem store_merge_lookup (store : ProgressStore) (jid : Nat) (p : Snapshot)
    (empty : Snapshot) (k : String) (hnd : (p.map Prod.fst).Nodup) :
    pyLookup ((pyLookup (pySet store jid
        (pyUpdate ((pyLookup store jid).getD empty) p)) jid).getD empty) k
      = (pyLookup p k).orElse
          (fun _ => pyLookup ((pyLookup store jid).getD empty) k) := by
  rw [pyLookup_pySet]
  simp only [if_pos rfl, Option.getD_some]
  exact pyLookup_pyUpdate _ p k hnd

/-- C6: for every job id and partial snapshot `p` (a Python dict, so with
distinct keys), the progress-store write merges exactly the fields of `p`
into the stored snapshot, creating the entry from the empty snapshot when
absent: reading back after the write, every key present in `p` has `p`'s
value and every other key has the value the pre-write read would have
given.  This holds for `HyperparamService` and for `TrainingService`. -/
theorem update_progress_merges_fields
    (store : ProgressStore) (jid : Nat) (p : Snapshot) (k : String)
    (hnd : (p.map Prod.fst).Nodup) :
    pyLookup (HyperparamService.get_progress
        (HyperparamService.update_progress store jid p) jid) k
      = (pyLookup p k).orElse
          (fun _ => pyLookup (HyperparamService.get_progress store jid) k) ∧
    pyLookup (TrainingService.get_progress
        (TrainingService.update_progress store jid p) jid) k
      = (pyLookup p k).orElse
          (fun _ => pyLookup (TrainingService.get_progress store jid) k) := by
  constructor
  · simpa [HyperparamService.get_progress, HyperparamService.update_progress]
      using store_merge_lookup store jid p emptySearchProgress k hnd
  · simpa [TrainingService.get_progress, TrainingService.update_progress]
      using store_merge_lookup store jid p emptyTrainingProgress k hnd

/-- Witness for C6: writing the partial snapshot `{"status": "running"}`
into an empty store creates the entry from the empty snapshot — the written
key reads back as written, and an untouched key (evaluated here at
`"status"` and at `"current_iteration"` via the merge equation) keeps its
empty-snapshot value. -/
theorem update_progress_merges_fields_witness :
    (pyLookup (HyperparamService.get_progress
        (HyperparamService.update_progress [] 1 [("status", .pStr "running")]) 1)
        "status"
      = (pyLookup [("status", PyVal.pStr "running")] "status").orElse
          (fun _ => pyLookup (HyperparamService.get_progress [] 1) "status") ∧
     pyLookup (TrainingService.get_progress
        (TrainingService.update_progress [] 1 [("status", .pStr "running")]) 1)
        "status"
      = (pyLookup [("status", PyVal.pStr "running")] "status").orElse
          (fun _ => pyLookup (TrainingService.get_progress [] 1) "status")) ∧
    (pyLookup (HyperparamService.get_progress
        (HyperparamService.update_progress [] 1 [("status", .pStr "running")]) 1)
        "current_iteration"
      = (pyLookup [("status", PyVal.pStr "running")] "current_iteration").orElse
          (fun _ =>
            pyLookup (HyperparamService.get_progress [] 1) "current_iteration") ∧
     pyLookup (TrainingService.get_progress
        (TrainingService.update_progress [] 1 [("status", .pStr "running")]) 1)
        "current_epoch"
      = (pyLookup [("status", PyVal.pStr "running")] "current_epoch").orElse
          (fun _ =>
            pyLookup (TrainingService.get_progress [] 1) "current_epoch")) :=
  ⟨update_progress_merges_fields [] 1 [("status", .pStr "running")] "status"
      (by simp),
   ⟨(update_progress_merges_fields [] 1 [("status", .pStr "running")]
       "current_iteration" (by simp)).1,
    (update_progress_merges_fields [] 1 [("status", .pStr "running")]
       "current_epoch" (by simp)).2⟩⟩

/-- C7: reading progress for a job id with no stored snapshot returns the
empty snapshot — status `"pending"`, zero current/total iterations, empty
params/metrics dicts and empty trials list — and, being a total function,
never an error. -/
theorem get_progress_absent_returns_empty
    (store : ProgressStore) (jid : Nat)
    (habs : pyLookup store jid = none) :
    HyperparamService.get_progress store jid = emptySearchProgress ∧
    pyLookup (HyperparamService.get_progress store jid) "status"
      = some (.pStr "pending") ∧
    pyLookup (HyperparamService.get_progress store jid) "current_iteration"
      = some (.pInt 0) ∧
    pyLookup (HyperparamService.get_progress store jid) "total_iterations"
      = some (.pInt 0) ∧
    pyLookup (HyperparamService.get_progress store jid) "iterations_completed"
      = some (.pInt 0) ∧
    pyLookup (HyperparamService.get_progress store jid) "current_params"
      = some (.pDict []) ∧
    pyLookup (HyperparamService.get_progress store jid) "best_params"
      = some (.pDict []) ∧
    pyLookup (HyperparamService.get_progress store jid) "best_metrics"
      = some (.pDict []) ∧
    pyLookup (HyperparamService.get_progress store jid) "trials"
      = some (.pList []) := by
  have h : HyperparamService.get_progress store jid = emptySearchProgress := by
    simp [HyperparamService.get_progress, habs]
  rw [h]
  exact ⟨rfl, rfl, rfl, rfl, rfl, rfl, rfl, rfl, rfl⟩

/-- Witness for C7: the empty store holds no snapshot for id 0, and the
read returns the empty snapshot. -/
theorem get_progress_absent_returns_empty_witness :
    HyperparamService.get_progress [] 0 = emptySearchProgress ∧
    pyLookup (HyperparamService.get_progress [] 0) "status"
      = some (.pStr "pending") ∧
    pyLookup (HyperparamService.get_progress [] 0) "current_iteration"
      = some (.pInt 0) ∧
    pyLookup (HyperparamService.get_progress [] 0) "total_iterations"
      = some (.pInt 0) ∧
    pyLookup (HyperparamService.get_progress [] 0) "iterations_completed"
      = some (.pInt 0) ∧
    pyLookup (HyperparamService.get_progress [] 0) "current_params"
      = some (.pDict []) ∧
    pyLookup (HyperparamService.get_progress [] 0) "best_params"
      = some (.pDict []) ∧
    pyLookup (HyperparamService.get_progress [] 0) "best_metrics"
      = some (.pDict []) ∧
    pyLookup (HyperparamService.get_progress [] 0) "trials"
      = some (.pList []) :=
  get_progress_absent_returns_empty [] 0 rfl

theorem Rng.choice_mem (r : Rng) (xs : List PyVal) (v : PyVal) (r2 : Rng)
    (h : Rng.choice r xs = .ok (v, r2)) : v ∈ xs := by
  cases xs with
  | nil => simp [Rng.choice] at h
  | cons a tl =>
      have hlt : r.next.1 % (a :: tl).length < (a :: tl).length :=
        Nat.mod_lt _ (by simp)
      simp only [Rng.choice, Rng.randNat, Except.ok.injEq, Prod.mk.injEq] at h
      rw [← h.1, List.getD_eq_getElem _ _ hlt]
      exact List.getElem_mem _

/-- `genParam` declines to produce a value only for the unrecognized domain
shape (a dict with neither both `"min"`/`"max"` nor `"options"`). -/
theorem genParam_none_unrecognized (r : Rng) (sp : PyVal) (r2 : Rng)
    (h : genParam r sp = .ok (none, r2)) : recognizedDomain sp = false := by
  cases sp with
  | pList xs =>
      cases xs with
      | nil => simp [genParam, Rng.choice, Except.map] at h
      | cons a tl => simp [genParam, Rng.choice, Rng.randNat, Except.map] at h
  | pDict d =>
      simp only [genParam] at h
      simp only [recognizedDomain]
      split at h
      · rename_i a b heq1 heq2
        cases hs : sampleRange r a b <;> simp [hs, Except.map] at h
      · rename_i hnot
        split at h
        · rename_i xs heq
          cases xs with
          | nil => simp [Rng.choice, Except.map] at h
          | cons c tl => simp [Rng.choice, Rng.randNat, Except.map] at h
        · simp at h
        · rename_i heq
          cases hmin2 : pyLookup d "min" with
          | none => simp [hmin2, heq]
          | some a =>
              cases hmax2 : pyLookup d "max" with
              | none => simp [hmin2, hmax2, heq]
              | some b => exact (hnot a b hmin2 hmax2).elim
  | pTuple xs =>
      match xs with
      | [] => simp [genParam] at h
      | [mv] => simp [genParam] at h
      | [mv, xv] =>
          simp only [genParam] at h
          cases hs : sampleRange r mv xv <;> simp [hs, Except.map] at h
      | mv :: xv :: c :: tl => simp [genParam] at h
  | pInt n => simp [genParam] at h
  | pRat q => simp [genParam] at h
  | pStr s => simp [genParam] at h
  | pBool b => simp [genParam] at h
  | pNone => simp [genParam] at h

/-- On every successful sampling run, each search-space parameter whose
domain shape is recognized appears in the resulting parameter set. -/
theorem generate_params_keeps_recognized
    (space : List (String × PyVal)) (r : Rng) (res : List (String × PyVal))
    (r2 : Rng) (h : generate_params space r = .ok (res, r2))
    (nm : String) (sp : PyVal) (hmem : (nm, sp) ∈ space)
    (hrec : recognizedDomain sp = true) : nm ∈ res.map Prod.fst := by
  induction space generalizing r res with
  | nil => simp at hmem
  | cons hd tl ih =>
      obtain ⟨hdn, hdsp⟩ := hd
      rw [generate_params] at h
      cases hg : genParam r hdsp with
      | error e => simp [hg] at h
      | ok pr =>
          obtain ⟨ov, r3⟩ := pr
          cases ov with
          | none =>
              simp only [hg] at h
              rcases List.mem_cons.mp hmem with heq | hmem2
              · injection heq with h1 h2
                subst h1
                subst h2
                rw [genParam_none_unrecognized r sp r3 hg] at hrec
                cases hrec
              · exact ih r3 res h hmem2
          | some v =>
              simp only [hg] at h
              cases hrest : generate_params tl r3 with
              | error e => simp [hrest, Except.map] at h
              | ok pr2 =>
                  obtain ⟨ps, r4⟩ := pr2
                  simp only [hrest, Except.map, Except.ok.injEq,
                    Prod.mk.injEq] at h
                  rcases List.mem_cons.mp hmem with heq | hmem2
                  · injection heq with h1 h2
                    subst h1
                    rw [← h.1]
                    simp
                  · rw [h.2] at hrest
                    have hin := ih r3 ps hrest hmem2
                    rw [← h.1]
                    simpa using Or.inr hin

/-- C10: a search-space parameter whose domain is a dict containing neither
both `"min"` and `"max"` nor `"options"` is silently omitted by
`generate_params` — the run continues without error, no entry is produced
for it and no randomness is consumed — while every parameter with a
recognized domain shape is present in any successful result; on the
concrete mixed space `{a: [1,2], b: {min:0,max:5}, c: {foo:1}, d:
{options:["x"]}, e: 7}` the sampled keys are exactly `a, b, d, e`. -/
theorem generate_params_unrecognized_domain_omitted :
    (∀ (nm : String) (d : List (String × PyVal))
        (rest : List (String × PyVal)) (r : Rng),
      (pyLookup d "min" = none ∨ pyLookup d "max" = none) →
      pyLookup d "options" = none →
        generate_params ((nm, .pDict d) :: rest) r = generate_params rest r) ∧
    (∀ (space : List (String × PyVal)) (r : Rng)
        (res : List (String × PyVal)) (r2 : Rng),
      generate_params space r = .ok (res, r2) →
      ∀ (nm : String) (sp : PyVal), (nm, sp) ∈ space →
        recognizedDomain sp = true → nm ∈ res.map Prod.fst) ∧
    (generate_params
        [("a", .pList [.pInt 1, .pInt 2]),
         ("b", .pDict [("min", .pInt 0), ("max", .pInt 5)]),
         ("c", .pDict [("foo", .pInt 1)]),
         ("d", .pDict [("options", .pList [.pStr "x"])]),
         ("e", .pInt 7)] ⟨0⟩).toOption.map (fun p => p.1.map Prod.fst)
      = some ["a", "b", "d", "e"] := by
  refine ⟨?_, ?_, ?_⟩
  · intro nm d rest r hmm hopt
    have hg : genParam r (.pDict d) = .ok (none, r) := by
      rcases hmm with hmin | hmax
      · simp [genParam, hmin, hopt]
      · cases hmin2 : pyLookup d "min" <;>
          simp [genParam, hmin2, hmax, hopt]
    rw [generate_params]
    simp only [hg]
  · exact generate_params_keeps_recognized
  · decide

/-- Witness for C10: the dict domain `{foo: 1}` is omitted without error —
sampling the one-entry space equals sampling the empty space — and a
recognized domain (`[2]` for key `"a"`) is present in the result. -/
theorem generate_params_unrecognized_domain_omitted_witness :
    generate_params [("c", PyVal.pDict [("foo", PyVal.pInt 1)])] ⟨5⟩
      = generate_params [] ⟨5⟩ ∧
    "a" ∈ ([("a", PyVal.pInt 2)] : List (String × PyVal)).map Prod.fst :=
  ⟨generate_params_unrecognized_domain_omitted.1 "c" [("foo", .pInt 1)] [] ⟨5⟩
      (Or.inl rfl) rfl,
   generate_params_unrecognized_domain_omitted.2.1
      [("a", .pList [.pInt 2])] ⟨5⟩ [("a", PyVal.pInt 2)] ((Rng.mk 5).next.2)
      (by rfl) "a" (.pList [.pInt 2]) (by simp) rfl⟩

/-- C8: parameter sampling is a deterministic function of the RNG seed and
the search space — two runs with the same seed and the same space produce
equal results — and on the example space `{lr: [0.001, 0.01, 0.1], epochs:
{min: 10, max: 10}}` every seed yields a parameter set whose `epochs` entry
is exactly 10 and whose `lr` entry is one of the three listed options. -/
theorem generate_params_deterministic :
    (∀ (space1 space2 : List (String × PyVal)) (r1 r2 : Rng),
      space1 = space2 → r1 = r2 →
        generate_params space1 r1 = generate_params space2 r2) ∧
    (∀ r : Rng, ∃ (v : PyVal) (rf : Rng),
      generate_params
          [("lr", .pList [.pRat (mkRat 1 1000), .pRat (mkRat 1 100),
              .pRat (mkRat 1 10)]),
           ("epochs", .pDict [("min", .pInt 10), ("max", .pInt 10)])] r
        = .ok ([("lr", v), ("epochs", .pInt 10)], rf) ∧
      v ∈ [PyVal.pRat (mkRat 1 1000), .pRat (mkRat 1 100),
           .pRat (mkRat 1 10)]) := by
  constructor
  · intro space1 space2 r1 r2 hs hr
    subst hs
    subst hr
    rfl
  · intro r
    refine ⟨([.pRat (mkRat 1 1000), .pRat (mkRat 1 100), .pRat (mkRat 1 10)] :
        List PyVal).getD (r.next.1 % 3) .pNone, r.next.2.next.2, ?_, ?_⟩
    · simp [generate_params, genParam, Rng.choice, Rng.randNat, sampleRange,
        Rng.randint, pyLookup, Nat.mod_one, Except.map]
    · have hlt : r.next.1 % 3
          < ([.pRat (mkRat 1 1000), .pRat (mkRat 1 100), .pRat (mkRat 1 10)] :
              List PyVal).length := by
        simpa using Nat.mod_lt r.next.1 (by decide)
      rw [List.getD_eq_getElem _ _ hlt]
      exact List.getElem_mem _

/-- Witness for C8: both conjuncts evaluated at the example space with seed
42. -/
theorem generate_params_deterministic_witness :
    generate_params
        [("lr", .pList [.pRat (mkRat 1 1000), .pRat (mkRat 1 100),
            .pRat (mkRat 1 10)]),
         ("epochs", .pDict [("min", .pInt 10), ("max", .pInt 10)])] ⟨42⟩
      = generate_params
          [("lr", .pList [.pRat (mkRat 1 1000), .pRat (mkRat 1 100),
              .pRat (mkRat 1 10)]),
           ("epochs", .pDict [("min", .pInt 10), ("max", .pInt 10)])] ⟨42⟩ ∧
    (∃ (v : PyVal) (rf : Rng),
      generate_params
          [("lr", .pList [.pRat (mkRat 1 1000), .pRat (mkRat 1 100),
              .pRat (mkRat 1 10)]),
           ("epochs", .pDict [("min", .pInt 10), ("max", .pInt 10)])] ⟨42⟩
        = .ok ([("lr", v), ("epochs", .pInt 10)], rf) ∧
      v ∈ [PyVal.pRat (mkRat 1 1000), .pRat (mkRat 1 100),
           .pRat (mkRat 1 10)]) :=
  ⟨generate_params_deterministic.1 _ _ ⟨42⟩ ⟨42⟩ rfl rfl,
   generate_params_deterministic.2 ⟨42⟩⟩

end Microdetect
